import Mathlib

/-!
Verification of the real-time paired game-session subsystem of the GenCon SG
Flask application (src/app.py socket-event handlers together with the
persistence model of src/models.py).

The embedding is a shallow functional one: the relational store is a record of
association lists keyed by primary key, each Socket.IO handler becomes a pure
function from the store (plus its event payload) to the new store together
with the list of broadcasts it emits, and - for the termination pipeline -
the list of durably committed snapshots (`db.session.commit()` points) plus a
flag recording whether the Python handler raised an unhandled exception.

Python float arithmetic in `calculate_elo` is idealised as real arithmetic
(`Real.rpow` for `10 ** x`, Mathlib `round` for Python `round`); every
concrete scenario proved below has a zero rating gap, where both semantics
agree exactly.
-/

/-- Row of the `users` table; only the column touched by the game core
(`elo`, default 1200) is modelled. -/
structure User where
  elo : Int
deriving DecidableEq

/-- Row of the `streaks` table (models.py, class Streak); the four counters
touched or read by the game core, each defaulting to 0. -/
structure Streak where
  current_streak : Int
  points : Int
  games_played : Int
  games_won : Int
deriving DecidableEq

/-- A persisted streaks row as application code creates it outside the game
core (auth.py line 218 adds `Streak(user_id=...)` and commits, so the
`default=0` column defaults are applied at INSERT): every counter 0. -/
def zeroStreak : Streak :=
  { current_streak := 0, points := 0, games_played := 0, games_won := 0 }

/-- Row of the `game_sessions` table (models.py, class GameSession, plus the
auto-patched `winner_id` and `game_state` columns added in app.py). -/
structure GameSession where
  game_id : Nat
  player1_id : Nat
  player2_id : Nat
  status : String
  player1_ready : Bool
  player2_ready : Bool
  game_state : Option String
  winner_id : Option Nat
deriving DecidableEq

/-- Row of the `game_history` table, with the fields supplied by the
`GameHistory(...)` constructor call in `handle_game_over` (app.py lines
94-103); the class itself lives outside src/, its shape is read off that
constructor call and the spec's HistoryLedger description. -/
structure GameHistory where
  game_id : Nat
  player1_id : Nat
  player2_id : Nat
  winner_id : Option Nat
  player1_elo_before : Int
  player1_elo_after : Int
  player2_elo_before : Int
  player2_elo_after : Int
deriving DecidableEq

/-- The relational store as seen by the game core. -/
structure DB where
  sessions : List (Nat × GameSession)
  users : List (Nat × User)
  streaks : List (Nat × Streak)
  history : List GameHistory
deriving DecidableEq

/-- Primary-key lookup (`Model.query.get(pk)` / `query.filter_by(user_id=pid).first()`). -/
def assocFind {α : Type} : List (Nat × α) → Nat → Option α
  | [], _ => none
  | (k, v) :: t, key => if k = key then some v else assocFind t key

/-- Overwrite the row at a primary key (attribute assignment on a fetched ORM
row); a key that is absent leaves the table unchanged. -/
def setA {α : Type} : List (Nat × α) → Nat → α → List (Nat × α)
  | [], _, _ => []
  | (k, v) :: t, key, nv => if k = key then (key, nv) :: t else (k, v) :: setA t key nv

/-- Python truthiness of an optional integer (`None` and `0` are falsy). -/
def pyTruthyNat : Option Nat → Bool
  | none => false
  | some n => !(n == 0)

/-- Python truthiness of an optional string (`None` and `""` are falsy). -/
def pyTruthyStr : Option String → Bool
  | none => false
  | some s => !(s == "")

/-- Python `a or b` on two optional strings. -/
def pyOrStr (a b : Option String) : Option String :=
  if pyTruthyStr a then a else b

/-- Expected score of a player rated `own` against a player rated `opp`
(app.py lines 53-54): `1 / (1 + 10 ** ((opp - own) / 400))`. -/
noncomputable def expScore (own opp : Int) : ℝ :=
  1 / (1 + (10 : ℝ) ^ ((((opp - own : Int)) : ℝ) / 400))

/-- `calculate_elo` (app.py lines 37-72). Looks up both users; on a missing
user it returns to the caller without committing (Python returns `None`,
which the caller then fails to unpack). On success it writes both new
ratings and commits; the returned snapshot list holds that one commit.
Result value mirrors the Python return `(p1_old, p1_new, p2_old, p2_new)`.
When `p1_id = p2_id`, `p1` and `p2` are the same ORM object, so the second
assignment reads the rating already updated by the first - the `p2_base`
conditional reproduces that aliasing. -/
noncomputable def calculate_elo (db : DB) (winner_id : Option Nat) (p1_id p2_id : Nat)
    (is_draw : Bool) : DB × List DB × Option (Int × Int × Int × Int) :=
  match assocFind db.users p1_id, assocFind db.users p2_id with
  | some p1, some p2 =>
      let expected_p1 : ℝ := expScore p1.elo p2.elo
      let expected_p2 : ℝ := expScore p2.elo p1.elo
      let actual_p1 : ℝ := if is_draw then 0.5 else if winner_id = some p1_id then 1 else 0
      let actual_p2 : ℝ := if is_draw then 0.5 else if winner_id = some p2_id then 1 else 0
      let p1_old := p1.elo
      let p2_old := p2.elo
      let p1_new := round ((p1.elo : ℝ) + 32 * (actual_p1 - expected_p1))
      let p2_base : Int := if p2_id = p1_id then p1_new else p2.elo
      let p2_new := round ((p2_base : ℝ) + 32 * (actual_p2 - expected_p2))
      let db1 : DB := { db with users := setA (setA db.users p1_id ⟨p1_new⟩) p2_id ⟨p2_new⟩ }
      (db1, [db1], some (p1_old, p1_new, p2_old, p2_new))
  | _, _ => (db, [], none)

/-- Winner resolution at the head of `handle_game_over` (app.py lines 81-85):
`if not winner_id and winner_color:` followed by the colour-token mapping. -/
def resolveWinner (winner_id : Option Nat) (winner_color : Option String)
    (p1_id p2_id : Nat) : Option Nat :=
  if pyTruthyNat winner_id = false ∧ pyTruthyStr winner_color = true then
    if winner_color = some "w" ∨ winner_color = some "red" ∨ winner_color = some "X" then
      some p1_id
    else
      some p2_id
  else
    winner_id

/-- Outcome stats dict returned by `handle_game_over` and broadcast as
`game_over_stats`. -/
structure Stats where
  winner_id : Option Nat
  is_draw : Bool
  p1_id : Nat
  p1_old : Int
  p1_new : Int
  p2_id : Nat
  p2_old : Int
  p2_new : Int
deriving DecidableEq

/-- Broadcasts emitted to the session room; the Bool records Socket.IO's
`include_self=False` sender exclusion where the code passes it. -/
inductive Emit where
  | game_over_stats (s : Stats)
  | game_start (session_id : Nat)
  | player_ready (user_id : Option Nat)
  | opponent_forfeit (winner_name : String) (exclude_sender : Bool)
  | move_evt (game_id : Nat) (exclude_sender : Bool)
deriving DecidableEq

/-- The in-memory effect of `gs.status = 'completed'; gs.winner_id = winner_id`
(app.py lines 87-88). -/
def completeSession (db : DB) (session_id : Nat) (gs : GameSession) (w : Option Nat) : DB :=
  { db with sessions := setA db.sessions session_id { gs with status := "completed", winner_id := w } }

/-- The `GameHistory(...)` append of app.py lines 94-104, with `t` the
`(p1_old, p1_new, p2_old, p2_new)` tuple returned by `calculate_elo`. -/
def recordHistory (db : DB) (gs : GameSession) (w : Option Nat)
    (t : Int × Int × Int × Int) : DB :=
  { db with history := db.history ++
      [{ game_id := gs.game_id, player1_id := gs.player1_id, player2_id := gs.player2_id,
         winner_id := w, player1_elo_before := t.1, player1_elo_after := t.2.1,
         player2_elo_before := t.2.2.1, player2_elo_after := t.2.2.2 }] }

/-- Body of the streak loop for one participant (app.py lines 113-120). -/
def bumpStreak (w : Option Nat) (is_draw : Bool) (pid : Nat) (s : Streak) : Streak :=
  let s1 := { s with games_played := s.games_played + 1 }
  if w = some pid then { s1 with games_won := s1.games_won + 1, points := s1.points + 50 }
  else if is_draw then { s1 with points := s1.points + 20 }
  else { s1 with points := s1.points + 5 }

/-- One iteration of the streak loop (app.py 108-120): fetch the row and
bump it. When the row is missing, the code builds `Streak(user_id=pid)`;
its counters are None until flush (the `default=0` column defaults apply
only at INSERT), so the immediate `streak.games_played += 1` raises
TypeError - modelled as `none`. -/
def upsertStreak (l : List (Nat × Streak)) (w : Option Nat) (is_draw : Bool)
    (pid : Nat) : Option (List (Nat × Streak)) :=
  match assocFind l pid with
  | some s => some (setA l pid (bumpStreak w is_draw pid s))
  | none => none

/-- The `for pid in [gs.player1_id, gs.player2_id]` loop (app.py 107-120);
`none` when either iteration raises. -/
def updateStreaks (db : DB) (p1 p2 : Nat) (w : Option Nat) (is_draw : Bool) : Option DB :=
  match upsertStreak db.streaks w is_draw p1 with
  | none => none
  | some l1 =>
    match upsertStreak l1 w is_draw p2 with
    | none => none
    | some l2 => some { db with streaks := l2 }

/-- The stats dict built at app.py lines 124-129. -/
def mkStats (gs : GameSession) (w : Option Nat) (d : Bool)
    (t : Int × Int × Int × Int) : Stats :=
  { winner_id := w, is_draw := d, p1_id := gs.player1_id, p1_old := t.1, p1_new := t.2.1,
    p2_id := gs.player2_id, p2_old := t.2.2.1, p2_new := t.2.2.2 }

/-- `handle_game_over` (app.py lines 74-129). Returns the durable store (the
state as of the last commit), the committed snapshots in order, the stats
dict (`none` both for the guard paths and for the exception paths), and
whether an unhandled exception escaped. `calculate_elo` returning `None`
makes the 4-tuple unpacking raise before anything was committed; a missing
streaks row makes the loop raise TypeError after the rating commit but
before the final commit, so only the first snapshot is durable and the
in-memory history append is lost. -/
noncomputable def handle_game_over (db : DB) (session_id : Nat) (winner_id : Option Nat)
    (winner_color : Option String) (is_draw : Bool) : DB × List DB × Option Stats × Bool :=
  match assocFind db.sessions session_id with
  | none => (db, [], none, false)
  | some gs =>
    if gs.status = "completed" then (db, [], none, false)
    else
      let w := resolveWinner winner_id winner_color gs.player1_id gs.player2_id
      match calculate_elo (completeSession db session_id gs w) w gs.player1_id gs.player2_id is_draw with
      | (_, _, none) => (db, [], none, true)
      | (db2, commits1, some t) =>
        match updateStreaks (recordHistory db2 gs w t) gs.player1_id gs.player2_id w is_draw with
        | none => (db2, commits1, none, true)
        | some db4 => (db4, commits1 ++ [db4], some (mkStats gs w is_draw t), false)

/-- Socket handler `on_game_over` (app.py lines 132-150): runs
`handle_game_over` and broadcasts `game_over_stats` to the session room iff
a stats dict came back. -/
noncomputable def on_game_over (db : DB) (session_id : Nat) (winner_id : Option Nat)
    (winner_color : Option String) (is_draw : Bool) : DB × List DB × List Emit × Bool :=
  match handle_game_over db session_id winner_id winner_color is_draw with
  | (db1, commits, some s, exc) => (db1, commits, [Emit.game_over_stats s], exc)
  | (db1, commits, none, exc) => (db1, commits, [], exc)

/-- Socket handler `on_ready` (app.py lines 191-234): sets the ready flag of
whichever participant matches the caller (no-op on the flags for anyone
else), commits, then either activates the session and broadcasts
`game_start` (whenever both flags are true - the status is not consulted) or
broadcasts `player_ready` naming the caller. -/
def on_ready (db : DB) (session_id : Nat) (user_id : Option Nat) : DB × List Emit :=
  match assocFind db.sessions session_id with
  | none => (db, [])
  | some gs =>
    let gs1 :=
      if user_id = some gs.player1_id then { gs with player1_ready := true }
      else if user_id = some gs.player2_id then { gs with player2_ready := true }
      else gs
    let db1 : DB := { db with sessions := setA db.sessions session_id gs1 }
    if gs1.player1_ready && gs1.player2_ready then
      let db2 : DB := { db1 with sessions := setA db1.sessions session_id { gs1 with status := "active" } }
      (db2, [Emit.game_start session_id])
    else
      (db1, [Emit.player_ready user_id])

/-- Socket handler `on_forfeit` (app.py lines 236-275). A `waiting` session
is abandoned with no rating impact; any other non-`completed` session is
terminated through `handle_game_over`, with the winner chosen as `player2`
when the caller equals `player1` and as `player1` otherwise (no membership
check). An exception escaping `handle_game_over` suppresses both emits. -/
noncomputable def on_forfeit (db : DB) (session_id : Nat) (user_id : Option Nat)
    (full_name : String) : DB × List DB × List Emit × Bool :=
  match assocFind db.sessions session_id with
  | none => (db, [], [], false)
  | some gs =>
    if gs.status = "completed" then (db, [], [], false)
    else if gs.status = "waiting" then
      let db1 : DB := { db with sessions := setA db.sessions session_id { gs with status := "abandoned" } }
      (db1, [db1], [Emit.opponent_forfeit full_name true], false)
    else
      let winner_id := if user_id = some gs.player1_id then gs.player2_id else gs.player1_id
      match handle_game_over db session_id (some winner_id) none false with
      | (db2, commits, some s, exc) =>
        (db2, commits,
         [Emit.opponent_forfeit full_name true, Emit.game_over_stats s], exc)
      | (db2, commits, none, exc) => (db2, commits, [], exc)

/-- Socket handler `on_move` (app.py lines 277-296): overwrites the session's
state blob with the first truthy of `fen`/`board`/`game_state` (last-writer
wins, no status or membership check) and always relays the move to the rest
of the room. -/
def on_move (db : DB) (game_id : Nat) (fen board game_state : Option String) :
    DB × List Emit :=
  let db1 : DB :=
    match assocFind db.sessions game_id with
    | none => db
    | some gs =>
      let new_state := pyOrStr fen (pyOrStr board game_state)
      if pyTruthyStr new_state then
        let gsMoved : GameSession := { gs with game_state := new_state }
        { db with sessions := setA db.sessions game_id gsMoved }
      else db
  (db1, [Emit.move_evt game_id true])

/-- Fold a list of `ready` events (each tagged with its caller) through
`on_ready`, collecting the broadcasts in order. -/
def runReadies : DB → Nat → List (Option Nat) → DB × List Emit
  | db, _, [] => (db, [])
  | db, sid, u :: rest =>
    let r1 := on_ready db sid u
    let r2 := runReadies r1.1 sid rest
    (r2.1, r1.2 ++ r2.2)

/-- Status column of a session, as a reconnecting `join` would observe it. -/
def statusOf (db : DB) (session_id : Nat) : Option String :=
  (assocFind db.sessions session_id).map GameSession.status

/-- Winner column of a session. -/
def winnerOf (db : DB) (session_id : Nat) : Option (Option Nat) :=
  (assocFind db.sessions session_id).map GameSession.winner_id

/-- Ready-flag pair of a session. -/
def readyFlags (db : DB) (session_id : Nat) : Option (Bool × Bool) :=
  (assocFind db.sessions session_id).map fun g => (g.player1_ready, g.player2_ready)

/-- Fixture: a waiting session between users 1 and 2, neither ready. -/
def gsWaiting : GameSession :=
  { game_id := 10, player1_id := 1, player2_id := 2, status := "waiting",
    player1_ready := false, player2_ready := false, game_state := none, winner_id := none }

/-- Fixture: the same session once both players are ready and playing. -/
def gsActive : GameSession := { gsWaiting with status := "active", player1_ready := true, player2_ready := true }

/-- Fixture: the same session after completion, user 1 recorded as winner. -/
def gsCompleted : GameSession := { gsActive with status := "completed", winner_id := some 1 }

/-- Fixture: the same session abandoned after both had readied. -/
def gsAbandoned : GameSession := { gsActive with status := "abandoned" }

/-- Fixture users table: users 1 and 2, both at the default rating 1200. -/
def usersTwo : List (Nat × User) := [(1, ⟨1200⟩), (2, ⟨1200⟩)]

/-- Fixture streaks table: the rows registration created for users 1 and 2,
counters at their INSERT-applied defaults. -/
def streaksZero : List (Nat × Streak) := [(1, zeroStreak), (2, zeroStreak)]

/-- Fixture store holding the waiting session under id 5. -/
def dbWaiting : DB := { sessions := [(5, gsWaiting)], users := usersTwo, streaks := [], history := [] }

/-- Fixture store holding the active session under id 5. -/
def dbActive : DB := { sessions := [(5, gsActive)], users := usersTwo, streaks := streaksZero, history := [] }

/-- Fixture store holding the completed session under id 5. -/
def dbCompleted : DB := { sessions := [(5, gsCompleted)], users := usersTwo, streaks := [], history := [] }

/-- Fixture store holding the abandoned session under id 5. -/
def dbAbandoned : DB := { sessions := [(5, gsAbandoned)], users := usersTwo, streaks := streaksZero, history := [] }

/-- Fixture store holding the active session but no streaks rows at all (the
configuration in which the streak loop raises TypeError). -/
def dbNoStreaks : DB := { sessions := [(5, gsActive)], users := usersTwo, streaks := [], history := [] }

/-- Fixture store whose active session references user 2 that is missing from
the users table (the failing-rating-update configuration). -/
def dbNoUser2 : DB := { sessions := [(5, gsActive)], users := [(1, ⟨1200⟩)], streaks := [], history := [] }

/-- The store durably committed by the first commit of a successful
termination of `dbActive` with winner 1: ratings and terminal status are
already durable, the history row and streak updates are not yet. -/
def dbActiveMid : DB :=
  { sessions := [(5, { gsActive with status := "completed", winner_id := some 1 })],
    users := [(1, ⟨1216⟩), (2, ⟨1184⟩)], streaks := streaksZero, history := [] }

/-- The single durable snapshot of a termination of `dbNoStreaks` with
winner 1: ratings and terminal status committed by the rating step, after
which the streak loop raises, so neither a history row nor a streak update
nor a second commit ever happens. -/
def dbNoStreaksMid : DB :=
  { sessions := [(5, { gsActive with status := "completed", winner_id := some 1 })],
    users := [(1, ⟨1216⟩), (2, ⟨1184⟩)], streaks := [], history := [] }

/-- Stats broadcast by a termination of `dbActive` with winner 1. -/
def statsActive : Stats :=
  { winner_id := some 1, is_draw := false, p1_id := 1, p1_old := 1200, p1_new := 1216,
    p2_id := 2, p2_old := 1200, p2_new := 1184 }

/-- History row written by a termination of `dbActive` with winner 1. -/
def histActive : GameHistory :=
  { game_id := 10, player1_id := 1, player2_id := 2, winner_id := some 1,
    player1_elo_before := 1200, player1_elo_after := 1216,
    player2_elo_before := 1200, player2_elo_after := 1184 }

/-- The store durably committed by the second commit of that termination. -/
def dbActiveFinal : DB :=
  { sessions := [(5, gsCompleted)], users := [(1, ⟨1216⟩), (2, ⟨1184⟩)],
    streaks := [(1, { current_streak := 0, points := 50, games_played := 1, games_won := 1 }),
                (2, { current_streak := 0, points := 5, games_played := 1, games_won := 0 })],
    history := [histActive] }

/-- The session row after a game_over carrying the non-participant id 999. -/
def gsStranger : GameSession := { gsActive with status := "completed", winner_id := some 999 }

/-- First commit of a termination of `dbActive` with winner id 999: both
participants lose 16 points since neither equals the winner. -/
def dbStrangerMid : DB :=
  { sessions := [(5, gsStranger)], users := [(1, ⟨1184⟩), (2, ⟨1184⟩)],
    streaks := streaksZero, history := [] }

/-- History row written by that termination. -/
def histStranger : GameHistory :=
  { game_id := 10, player1_id := 1, player2_id := 2, winner_id := some 999,
    player1_elo_before := 1200, player1_elo_after := 1184,
    player2_elo_before := 1200, player2_elo_after := 1184 }

/-- Stats broadcast by that termination. -/
def statsStranger : Stats :=
  { winner_id := some 999, is_draw := false, p1_id := 1, p1_old := 1200, p1_new := 1184,
    p2_id := 2, p2_old := 1200, p2_new := 1184 }

/-- Second commit of that termination. -/
def dbStrangerFinal : DB :=
  { sessions := [(5, gsStranger)], users := [(1, ⟨1184⟩), (2, ⟨1184⟩)],
    streaks := [(1, { current_streak := 0, points := 5, games_played := 1, games_won := 0 }),
                (2, { current_streak := 0, points := 5, games_played := 1, games_won := 0 })],
    history := [histStranger] }

-- ==== theorems ====
theorem assocFind_setA_self {α : Type} (l : List (Nat × α)) (k : Nat) (nv : α) :
    assocFind (setA l k nv) k = (assocFind l k).map fun _ => nv := by
  induction l with
  | nil => rfl
  | cons h t ih =>
    obtain ⟨k', v⟩ := h
    by_cases hk : k' = k
    · simp [setA, assocFind, hk]
    · simp [setA, assocFind, hk, ih]

theorem assocFind_setA_other {α : Type} (l : List (Nat × α)) (k k' : Nat) (nv : α)
    (h : k' ≠ k) : assocFind (setA l k nv) k' = assocFind l k' := by
  induction l with
  | nil => rfl
  | cons hd t ih =>
    obtain ⟨k0, v⟩ := hd
    by_cases hk : k0 = k
    · subst hk
      simp [setA, assocFind, Ne.symm h]
    · simp [setA, assocFind, hk, ih]

theorem setA_self_eq {α : Type} (l : List (Nat × α)) (k : Nat) (v : α)
    (h : assocFind l k = some v) : setA l k v = l := by
  induction l with
  | nil => simp [assocFind] at h
  | cons hd t ih =>
    obtain ⟨k0, v0⟩ := hd
    by_cases hk : k0 = k
    · subst hk
      simp [assocFind] at h
      simp [setA, h]
    · simp [assocFind, hk] at h
      simp [setA, hk, ih h]

theorem setA_comm {α : Type} (l : List (Nat × α)) (i j : Nat) (a b : α) (h : i ≠ j) :
    setA (setA l i a) j b = setA (setA l j b) i a := by
  induction l with
  | nil => rfl
  | cons hd t ih =>
    obtain ⟨k, v⟩ := hd
    by_cases hki : k = i
    · subst hki
      simp [setA, h, Ne.symm h]
    · by_cases hkj : k = j
      · subst hkj
        simp [setA, h, Ne.symm h, hki]
      · simp [setA, hki, hkj, ih]

theorem expScore_self (r : Int) : expScore r r = 1 / 2 := by
  simp [expScore]
  norm_num

theorem round_add_mul_one_half (r : Int) :
    round ((r : ℝ) + 32 * ((1 : ℝ) - 1 / 2)) = r + 16 := by
  have h : (r : ℝ) + 32 * ((1 : ℝ) - 1 / 2) = ((r + 16 : Int) : ℝ) := by
    push_cast
    ring
  rw [h, round_intCast]

theorem round_sub_mul_half (r : Int) :
    round ((r : ℝ) + 32 * ((0 : ℝ) - 1 / 2)) = r - 16 := by
  have h : (r : ℝ) + 32 * ((0 : ℝ) - 1 / 2) = ((r - 16 : Int) : ℝ) := by
    push_cast
    ring
  rw [h, round_intCast]

theorem round_draw_half (r : Int) :
    round ((r : ℝ) + 32 * ((0.5 : ℝ) - 1 / 2)) = r := by
  have h : (r : ℝ) + 32 * ((0.5 : ℝ) - 1 / 2) = ((r : Int) : ℝ) := by
    norm_num
  rw [h, round_intCast]

theorem calculate_elo_sessions (db : DB) (w : Option Nat) (i j : Nat) (d : Bool) :
    (calculate_elo db w i j d).1.sessions = db.sessions := by
  unfold calculate_elo
  cases h1 : assocFind db.users i <;> cases h2 : assocFind db.users j <;> simp

theorem calculate_elo_history (db : DB) (w : Option Nat) (i j : Nat) (d : Bool) :
    (calculate_elo db w i j d).1.history = db.history := by
  unfold calculate_elo
  cases h1 : assocFind db.users i <;> cases h2 : assocFind db.users j <;> simp

theorem calculate_elo_streaks (db : DB) (w : Option Nat) (i j : Nat) (d : Bool) :
    (calculate_elo db w i j d).1.streaks = db.streaks := by
  unfold calculate_elo
  cases h1 : assocFind db.users i <;> cases h2 : assocFind db.users j <;> simp

/-- Evaluation of `calculate_elo` for two distinct users at equal ratings:
the expected score on each side is exactly 1/2, so the winner gains 16, the
loser loses 16, and a draw moves nobody. -/
theorem calculate_elo_equal_ratings (db : DB) (w : Option Nat) (i j : Nat) (isd : Bool)
    (hij : i ≠ j) (ui uj : User)
    (hi : assocFind db.users i = some ui) (hj : assocFind db.users j = some uj)
    (hr : uj.elo = ui.elo) :
    calculate_elo db w i j isd =
      (let n1 : Int := if isd then ui.elo else if w = some i then ui.elo + 16 else ui.elo - 16
       let n2 : Int := if isd then ui.elo else if w = some j then ui.elo + 16 else ui.elo - 16
       let db1 : DB := { db with users := setA (setA db.users i ⟨n1⟩) j ⟨n2⟩ }
       (db1, [db1], some (ui.elo, n1, ui.elo, n2))) := by
  obtain ⟨r⟩ := ui
  obtain ⟨r2⟩ := uj
  have hr' : r2 = r := hr
  subst hr'
  simp only [calculate_elo, hi, hj]
  have hji : ¬ (j = i) := fun hh => hij hh.symm
  cases isd with
  | true =>
    simp only [if_true, if_neg hji, expScore_self, round_draw_half]
  | false =>
    by_cases hw1 : w = some i
    · simp only [hw1, Option.some.injEq, hij, hji, Bool.false_eq_true, if_true, if_false,
        reduceIte, if_neg hji, expScore_self, round_add_mul_one_half, round_sub_mul_half]
    · by_cases hw2 : w = some j <;>
        simp only [hw1, hw2, Option.some.injEq, hij, hji, Bool.false_eq_true, if_true,
          if_false, reduceIte, if_neg hji, expScore_self, round_add_mul_one_half,
          round_sub_mul_half]

theorem handle_game_over_guard (db : DB) (sid : Nat) (wid : Option Nat) (wc : Option String)
    (d : Bool) (gs : GameSession) (hgs : assocFind db.sessions sid = some gs)
    (hst : gs.status = "completed") :
    handle_game_over db sid wid wc d = (db, [], none, false) := by
  unfold handle_game_over
  simp [hgs, hst]

theorem on_forfeit_guard (db : DB) (sid : Nat) (uid : Option Nat) (nm : String)
    (gs : GameSession) (hgs : assocFind db.sessions sid = some gs)
    (hst : gs.status = "completed") :
    on_forfeit db sid uid nm = (db, [], [], false) := by
  unfold on_forfeit
  simp [hgs, hst]

theorem handle_game_over_failure_run (db : DB) (sid : Nat) (wid : Option Nat)
    (wc : Option String) (d : Bool) (gs : GameSession)
    (hgs : assocFind db.sessions sid = some gs) (hst : gs.status ≠ "completed")
    (hfail : assocFind db.users gs.player1_id = none ∨ assocFind db.users gs.player2_id = none) :
    handle_game_over db sid wid wc d = (db, [], none, true) := by
  unfold handle_game_over
  rcases hfail with hf | hf <;>
    [ (cases h2 : assocFind db.users gs.player2_id <;>
        simp [hgs, hst, calculate_elo, completeSession, hf, h2]);
      (cases h1 : assocFind db.users gs.player1_id <;>
        simp [hgs, hst, calculate_elo, completeSession, hf, h1]) ]

theorem calculate_elo_success_shape (db : DB) (w : Option Nat) (i j : Nat) (d : Bool)
    (db2 : DB) (cs : List DB) (t : Int × Int × Int × Int)
    (h : calculate_elo db w i j d = (db2, cs, some t)) : cs = [db2] := by
  unfold calculate_elo at h
  cases h1 : assocFind db.users i <;> rw [h1] at h
  · simp at h
  · cases h2 : assocFind db.users j <;> rw [h2] at h
    · simp at h
    · simp only [Prod.mk.injEq] at h
      rw [← h.2.1, h.1]

theorem updateStreaks_some (db : DB) (p1 p2 : Nat) (w : Option Nat) (d : Bool) (db2 : DB)
    (h : updateStreaks db p1 p2 w d = some db2) :
    db2.sessions = db.sessions ∧ db2.users = db.users ∧ db2.history = db.history := by
  unfold updateStreaks at h
  cases h1 : upsertStreak db.streaks w d p1 with
  | none =>
    rw [h1] at h
    simp at h
  | some l1 =>
    rw [h1] at h
    dsimp only at h
    cases h2 : upsertStreak l1 w d p2 with
    | none =>
      rw [h2] at h
      simp at h
    | some l2 =>
      rw [h2] at h
      dsimp only at h
      simp only [Option.some.injEq] at h
      subst h
      exact ⟨rfl, rfl, rfl⟩

/-- Full characterisation of a successful `handle_game_over`: the resolved
winner and participant ids in the stats dict, the two-commit trace with its
intermediate snapshot (ratings and terminal status durable, history row and
streak updates not yet), and the single appended history row. -/
theorem handle_game_over_success_run (db : DB) (sid : Nat) (wid : Option Nat)
    (wc : Option String) (d : Bool) (s : Stats)
    (h : (handle_game_over db sid wid wc d).2.2.1 = some s) :
    ∃ gs mid,
      assocFind db.sessions sid = some gs ∧ gs.status ≠ "completed" ∧
      s.winner_id = resolveWinner wid wc gs.player1_id gs.player2_id ∧
      s.p1_id = gs.player1_id ∧ s.p2_id = gs.player2_id ∧ s.is_draw = d ∧
      (handle_game_over db sid wid wc d).2.1 = [mid, (handle_game_over db sid wid wc d).1] ∧
      (handle_game_over db sid wid wc d).2.2.2 = false ∧
      mid.history = db.history ∧
      mid.users = (handle_game_over db sid wid wc d).1.users ∧
      mid.streaks = db.streaks ∧
      statusOf mid sid = some "completed" ∧
      statusOf (handle_game_over db sid wid wc d).1 sid = some "completed" ∧
      winnerOf (handle_game_over db sid wid wc d).1 sid = some s.winner_id ∧
      (handle_game_over db sid wid wc d).1.history =
        db.history ++ [{ game_id := gs.game_id, player1_id := gs.player1_id,
                         player2_id := gs.player2_id, winner_id := s.winner_id,
                         player1_elo_before := s.p1_old, player1_elo_after := s.p1_new,
                         player2_elo_before := s.p2_old, player2_elo_after := s.p2_new }] := by
  rcases hgs : assocFind db.sessions sid with _ | gs
  · unfold handle_game_over at h
    rw [hgs] at h
    simp at h
  · by_cases hst : gs.status = "completed"
    · rw [handle_game_over_guard db sid wid wc d gs hgs hst] at h
      simp at h
    · rcases hce : calculate_elo
          (completeSession db sid gs (resolveWinner wid wc gs.player1_id gs.player2_id))
          (resolveWinner wid wc gs.player1_id gs.player2_id)
          gs.player1_id gs.player2_id d with ⟨db2, commits1, r⟩
      have hsess := calculate_elo_sessions
          (completeSession db sid gs (resolveWinner wid wc gs.player1_id gs.player2_id))
          (resolveWinner wid wc gs.player1_id gs.player2_id) gs.player1_id gs.player2_id d
      have hhist := calculate_elo_history
          (completeSession db sid gs (resolveWinner wid wc gs.player1_id gs.player2_id))
          (resolveWinner wid wc gs.player1_id gs.player2_id) gs.player1_id gs.player2_id d
      have hstreaks := calculate_elo_streaks
          (completeSession db sid gs (resolveWinner wid wc gs.player1_id gs.player2_id))
          (resolveWinner wid wc gs.player1_id gs.player2_id) gs.player1_id gs.player2_id d
      rw [hce] at hsess hhist hstreaks
      have hgo : handle_game_over db sid wid wc d =
          match (db2, commits1, r) with
          | (_, _, none) => (db, [], none, true)
          | (db2, commits1, some t) =>
            match updateStreaks
                (recordHistory db2 gs (resolveWinner wid wc gs.player1_id gs.player2_id) t)
                gs.player1_id gs.player2_id (resolveWinner wid wc gs.player1_id gs.player2_id) d with
            | none => (db2, commits1, none, true)
            | some db4 =>
              (db4, commits1 ++ [db4],
               some (mkStats gs (resolveWinner wid wc gs.player1_id gs.player2_id) d t), false) := by
        unfold handle_game_over
        rw [hgs]
        dsimp only
        rw [if_neg hst, hce]
      rcases r with _ | t
      · rw [hgo] at h
        simp at h
      · have hcommits : commits1 = [db2] := calculate_elo_success_shape _ _ _ _ _ _ _ _ hce
        subst hcommits
        rw [hgo] at h ⊢
        dsimp only at h ⊢
        rcases hus : updateStreaks
            (recordHistory db2 gs (resolveWinner wid wc gs.player1_id gs.player2_id) t)
            gs.player1_id gs.player2_id (resolveWinner wid wc gs.player1_id gs.player2_id) d
            with _ | db4
        · rw [hus] at h
          simp at h
        · rw [hus] at h
          dsimp only at h ⊢
          obtain rfl : s = mkStats gs (resolveWinner wid wc gs.player1_id gs.player2_id) d t := by
            cases h
            rfl
          obtain ⟨husS, husU, husH⟩ := updateStreaks_some _ _ _ _ _ _ hus
          have hS : db4.sessions =
              (completeSession db sid gs (resolveWinner wid wc gs.player1_id gs.player2_id)).sessions := by
            rw [husS]
            exact hsess
          refine ⟨gs, db2, rfl, hst, rfl, rfl, rfl, rfl, rfl, rfl, hhist, ?_, hstreaks,
            ?_, ?_, ?_, ?_⟩
          · rw [husU]
            rfl
          · unfold statusOf
            rw [hsess, completeSession]
            dsimp only
            rw [assocFind_setA_self, hgs]
            rfl
          · unfold statusOf
            rw [hS, completeSession]
            dsimp only
            rw [assocFind_setA_self, hgs]
            rfl
          · unfold winnerOf
            rw [hS, completeSession]
            dsimp only
            rw [assocFind_setA_self, hgs]
            rfl
          · rw [husH]
            unfold recordHistory
            dsimp only
            rw [hhist]
            rfl

theorem on_ready_partial_p1 (db : DB) (sid : Nat) (gs : GameSession) (uid : Option Nat)
    (hgs : assocFind db.sessions sid = some gs) (hu : uid = some gs.player1_id)
    (h2 : gs.player2_ready = false) :
    on_ready db sid uid =
      ({ db with sessions := setA db.sessions sid { gs with player1_ready := true } },
       [Emit.player_ready uid]) := by
  subst hu
  unfold on_ready
  rw [hgs]
  dsimp only
  rw [if_pos rfl]
  simp [h2]

theorem on_ready_partial_p2 (db : DB) (sid : Nat) (gs : GameSession) (uid : Option Nat)
    (hgs : assocFind db.sessions sid = some gs) (hu : uid = some gs.player2_id)
    (hp : gs.player2_id ≠ gs.player1_id) (h1 : gs.player1_ready = false) :
    on_ready db sid uid =
      ({ db with sessions := setA db.sessions sid { gs with player2_ready := true } },
       [Emit.player_ready uid]) := by
  subst hu
  unfold on_ready
  rw [hgs]
  dsimp only
  simp [hp, h1]

theorem on_ready_completes_p2 (db : DB) (sid : Nat) (gs : GameSession) (uid : Option Nat)
    (hgs : assocFind db.sessions sid = some gs) (hu : uid = some gs.player2_id)
    (hp : gs.player2_id ≠ gs.player1_id) (h1 : gs.player1_ready = true) :
    on_ready db sid uid =
      ({ db with sessions := setA (setA db.sessions sid { gs with player2_ready := true }) sid { gs with player2_ready := true, status := "active" } },
       [Emit.game_start sid]) := by
  subst hu
  unfold on_ready
  rw [hgs]
  dsimp only
  simp [hp, h1]

theorem on_ready_completes_p1 (db : DB) (sid : Nat) (gs : GameSession) (uid : Option Nat)
    (hgs : assocFind db.sessions sid = some gs) (hu : uid = some gs.player1_id)
    (h2 : gs.player2_ready = true) :
    on_ready db sid uid =
      ({ db with sessions := setA (setA db.sessions sid { gs with player1_ready := true }) sid { gs with player1_ready := true, status := "active" } },
       [Emit.game_start sid]) := by
  subst hu
  unfold on_ready
  rw [hgs]
  dsimp only
  simp [h2]

theorem on_ready_no_scoring (db : DB) (sid : Nat) (uid : Option Nat) :
    (on_ready db sid uid).1.history = db.history ∧
    (on_ready db sid uid).1.users = db.users ∧
    (on_ready db sid uid).1.streaks = db.streaks := by
  unfold on_ready
  rcases hgs : assocFind db.sessions sid with _ | gs
  · exact ⟨rfl, rfl, rfl⟩
  · dsimp only
    refine ⟨?_, ?_, ?_⟩ <;> split_ifs <;> rfl

theorem on_ready_status (db : DB) (sid : Nat) (uid : Option Nat) :
    statusOf (on_ready db sid uid).1 sid = statusOf db sid ∨
    statusOf (on_ready db sid uid).1 sid = some "active" := by
  unfold on_ready
  rcases hgs : assocFind db.sessions sid with _ | gs
  · exact Or.inl rfl
  · dsimp only
    split_ifs
    all_goals
      first
        | (right
           unfold statusOf
           dsimp only
           rw [assocFind_setA_self, assocFind_setA_self, hgs]
           rfl)
        | (left
           unfold statusOf
           dsimp only
           rw [assocFind_setA_self, hgs]
           rfl)

theorem on_move_no_scoring_status (db : DB) (gid : Nat) (f b st : Option String) (sid : Nat) :
    (on_move db gid f b st).1.history = db.history ∧
    (on_move db gid f b st).1.users = db.users ∧
    (on_move db gid f b st).1.streaks = db.streaks ∧
    statusOf (on_move db gid f b st).1 sid = statusOf db sid := by
  unfold on_move
  rcases hgs : assocFind db.sessions gid with _ | gs
  · exact ⟨rfl, rfl, rfl, rfl⟩
  · dsimp only
    split
    · refine ⟨rfl, rfl, rfl, ?_⟩
      unfold statusOf
      dsimp only
      by_cases hsg : sid = gid
      · subst hsg
        rw [assocFind_setA_self, hgs]
        rfl
      · rw [assocFind_setA_other _ _ _ _ hsg]
    · exact ⟨rfl, rfl, rfl, rfl⟩

theorem on_forfeit_waiting (db : DB) (sid : Nat) (uid : Option Nat) (nm : String)
    (gs : GameSession) (hgs : assocFind db.sessions sid = some gs)
    (hw : gs.status = "waiting") :
    on_forfeit db sid uid nm =
      ({ db with sessions := setA db.sessions sid { gs with status := "abandoned" } },
       [{ db with sessions := setA db.sessions sid { gs with status := "abandoned" } }],
       [Emit.opponent_forfeit nm true], false) := by
  unfold on_forfeit
  rw [hgs]
  dsimp only
  rw [if_neg (by rw [hw]; decide), if_pos hw]

theorem on_forfeit_scores (db : DB) (sid : Nat) (uid : Option Nat) (nm : String)
    (gs : GameSession) (hgs : assocFind db.sessions sid = some gs)
    (hc : gs.status ≠ "completed") (hw : gs.status ≠ "waiting") :
    on_forfeit db sid uid nm =
      (match handle_game_over db sid
          (some (if uid = some gs.player1_id then gs.player2_id else gs.player1_id)) none false with
       | (db2, commits, some s, exc) =>
         (db2, commits, [Emit.opponent_forfeit nm true, Emit.game_over_stats s], exc)
       | (db2, commits, none, exc) => (db2, commits, [], exc)) := by
  unfold on_forfeit
  rw [hgs]
  dsimp only
  rw [if_neg hc, if_neg hw]

theorem handle_game_over_dbActive_eval :
    handle_game_over dbActive 5 (some 1) none false =
      (dbActiveFinal, [dbActiveMid, dbActiveFinal], some statsActive, false) := by
  have hce : calculate_elo (completeSession dbActive 5 gsActive (some 1)) (some 1) 1 2 false =
      (dbActiveMid, [dbActiveMid], some (1200, 1216, 1200, 1184)) := by
    rw [calculate_elo_equal_ratings (completeSession dbActive 5 gsActive (some 1))
      (some 1) 1 2 false (by decide) ⟨1200⟩ ⟨1200⟩ rfl rfl rfl]
    rfl
  unfold handle_game_over
  rw [show assocFind dbActive.sessions 5 = some gsActive from rfl]
  dsimp only
  rw [if_neg (show ¬gsActive.status = "completed" by decide)]
  rw [show resolveWinner (some 1) none gsActive.player1_id gsActive.player2_id = some 1 from rfl,
      show gsActive.player1_id = 1 from rfl, show gsActive.player2_id = 2 from rfl]
  rw [hce]
  rfl

theorem handle_game_over_dbAbandoned_eval :
    handle_game_over dbAbandoned 5 (some 1) none false =
      (dbActiveFinal, [dbActiveMid, dbActiveFinal], some statsActive, false) := by
  have hce : calculate_elo (completeSession dbAbandoned 5 gsAbandoned (some 1)) (some 1) 1 2 false =
      (dbActiveMid, [dbActiveMid], some (1200, 1216, 1200, 1184)) := by
    rw [calculate_elo_equal_ratings (completeSession dbAbandoned 5 gsAbandoned (some 1))
      (some 1) 1 2 false (by decide) ⟨1200⟩ ⟨1200⟩ rfl rfl rfl]
    rfl
  unfold handle_game_over
  rw [show assocFind dbAbandoned.sessions 5 = some gsAbandoned from rfl]
  dsimp only
  rw [if_neg (show ¬gsAbandoned.status = "completed" by decide)]
  rw [show resolveWinner (some 1) none gsAbandoned.player1_id gsAbandoned.player2_id = some 1 from rfl,
      show gsAbandoned.player1_id = 1 from rfl, show gsAbandoned.player2_id = 2 from rfl]
  rw [hce]
  rfl

theorem handle_game_over_dbStranger_eval :
    handle_game_over dbActive 5 (some 999) none false =
      (dbStrangerFinal, [dbStrangerMid, dbStrangerFinal], some statsStranger, false) := by
  have hce : calculate_elo (completeSession dbActive 5 gsActive (some 999)) (some 999) 1 2 false =
      (dbStrangerMid, [dbStrangerMid], some (1200, 1184, 1200, 1184)) := by
    rw [calculate_elo_equal_ratings (completeSession dbActive 5 gsActive (some 999))
      (some 999) 1 2 false (by decide) ⟨1200⟩ ⟨1200⟩ rfl rfl rfl]
    rfl
  unfold handle_game_over
  rw [show assocFind dbActive.sessions 5 = some gsActive from rfl]
  dsimp only
  rw [if_neg (show ¬gsActive.status = "completed" by decide)]
  rw [show resolveWinner (some 999) none gsActive.player1_id gsActive.player2_id = some 999 from rfl,
      show gsActive.player1_id = 1 from rfl, show gsActive.player2_id = 2 from rfl]
  rw [hce]
  rfl

theorem on_game_over_dbAbandoned_eval :
    on_game_over dbAbandoned 5 (some 1) none false =
      (dbActiveFinal, [dbActiveMid, dbActiveFinal], [Emit.game_over_stats statsActive], false) := by
  unfold on_game_over
  rw [handle_game_over_dbAbandoned_eval]

theorem on_game_over_dbStranger_eval :
    on_game_over dbActive 5 (some 999) none false =
      (dbStrangerFinal, [dbStrangerMid, dbStrangerFinal],
       [Emit.game_over_stats statsStranger], false) := by
  unfold on_game_over
  rw [handle_game_over_dbStranger_eval]

theorem on_forfeit_dbActive_stranger_eval :
    on_forfeit dbActive 5 (some 999) "Mallory" =
      (dbActiveFinal, [dbActiveMid, dbActiveFinal],
       [Emit.opponent_forfeit "Mallory" true, Emit.game_over_stats statsActive], false) := by
  rw [on_forfeit_scores dbActive 5 (some 999) "Mallory" gsActive rfl (by decide) (by decide)]
  rw [show (if some (999 : Nat) = some gsActive.player1_id then gsActive.player2_id else gsActive.player1_id) = 1 from rfl]
  rw [handle_game_over_dbActive_eval]

theorem on_forfeit_dbActive_p2_eval :
    on_forfeit dbActive 5 (some 2) "Bob" =
      (dbActiveFinal, [dbActiveMid, dbActiveFinal],
       [Emit.opponent_forfeit "Bob" true, Emit.game_over_stats statsActive], false) := by
  rw [on_forfeit_scores dbActive 5 (some 2) "Bob" gsActive rfl (by decide) (by decide)]
  rw [show (if some (2 : Nat) = some gsActive.player1_id then gsActive.player2_id else gsActive.player1_id) = 1 from rfl]
  rw [handle_game_over_dbActive_eval]

theorem statusOf_completed_elim (db : DB) (sid : Nat)
    (h : statusOf db sid = some "completed") :
    ∃ g, assocFind db.sessions sid = some g ∧ g.status = "completed" := by
  unfold statusOf at h
  rcases hf : assocFind db.sessions sid with _ | g
  · rw [hf] at h
    simp at h
  · rw [hf] at h
    simp only [Option.map_some'] at h
    exact ⟨g, rfl, by simpa using h⟩

theorem upsertStreak_hit (l : List (Nat × Streak)) (w : Option Nat) (d : Bool)
    (pid : Nat) (s : Streak) (h : assocFind l pid = some s) :
    upsertStreak l w d pid = some (setA l pid (bumpStreak w d pid s)) := by
  unfold upsertStreak
  rw [h]

theorem updateStreaks_succeeds (db : DB) (p1 p2 : Nat) (w : Option Nat) (d : Bool)
    (t1 t2 : Streak) (hp : p1 ≠ p2)
    (h1 : assocFind db.streaks p1 = some t1) (h2 : assocFind db.streaks p2 = some t2) :
    ∃ db2, updateStreaks db p1 p2 w d = some db2 := by
  unfold updateStreaks
  rw [upsertStreak_hit db.streaks w d p1 t1 h1]
  dsimp only
  rw [upsertStreak_hit _ w d p2 t2 ?_]
  · exact ⟨_, rfl⟩
  · rw [assocFind_setA_other]
    · exact h2
    · exact fun hh => hp hh.symm

theorem handle_game_over_succeeds (db : DB) (sid : Nat) (wid : Option Nat)
    (wc : Option String) (d : Bool) (gs : GameSession) (u1 u2 : User) (t1 t2 : Streak)
    (hgs : assocFind db.sessions sid = some gs) (hst : gs.status ≠ "completed")
    (hp : gs.player1_id ≠ gs.player2_id)
    (h1 : assocFind db.users gs.player1_id = some u1)
    (h2 : assocFind db.users gs.player2_id = some u2)
    (hs1 : assocFind db.streaks gs.player1_id = some t1)
    (hs2 : assocFind db.streaks gs.player2_id = some t2) :
    ∃ s, (handle_game_over db sid wid wc d).2.2.1 = some s := by
  unfold handle_game_over
  rw [hgs]
  dsimp only
  rw [if_neg hst]
  rcases hce : calculate_elo
      (completeSession db sid gs (resolveWinner wid wc gs.player1_id gs.player2_id))
      (resolveWinner wid wc gs.player1_id gs.player2_id)
      gs.player1_id gs.player2_id d with ⟨db2, cs, r⟩
  rcases r with _ | t
  · exfalso
    unfold calculate_elo at hce
    have hcu : (completeSession db sid gs (resolveWinner wid wc gs.player1_id gs.player2_id)).users = db.users := rfl
    rw [hcu, h1, h2] at hce
    simp at hce
  · have hstr : db2.streaks = db.streaks := by
      have hh := calculate_elo_streaks
          (completeSession db sid gs (resolveWinner wid wc gs.player1_id gs.player2_id))
          (resolveWinner wid wc gs.player1_id gs.player2_id) gs.player1_id gs.player2_id d
      rw [hce] at hh
      exact hh
    dsimp only
    obtain ⟨db4, hdb4⟩ := updateStreaks_succeeds
        (recordHistory db2 gs (resolveWinner wid wc gs.player1_id gs.player2_id) t)
        gs.player1_id gs.player2_id (resolveWinner wid wc gs.player1_id gs.player2_id) d
        t1 t2 hp
        (by rw [show (recordHistory db2 gs (resolveWinner wid wc gs.player1_id gs.player2_id) t).streaks = db2.streaks from rfl, hstr]; exact hs1)
        (by rw [show (recordHistory db2 gs (resolveWinner wid wc gs.player1_id gs.player2_id) t).streaks = db2.streaks from rfl, hstr]; exact hs2)
    rw [hdb4]
    exact ⟨_, rfl⟩

/-- C1: once a first game_over call has succeeded - durably completing the
session, scoring it and emitting its stats - every later game_over call for
that session, with any arguments, leaves the store untouched, commits
nothing, writes no second history row, and emits no second game_over_stats
broadcast. -/
theorem game_over_idempotent_after_success (db : DB) (sid : Nat)
    (w : Option Nat) (wc : Option String) (d : Bool) (s : Stats)
    (h : (handle_game_over db sid w wc d).2.2.1 = some s)
    (w2 : Option Nat) (wc2 : Option String) (d2 : Bool) :
    on_game_over (handle_game_over db sid w wc d).1 sid w2 wc2 d2 =
      ((handle_game_over db sid w wc d).1, [], [], false) := by
  obtain ⟨gs, mid, -, -, -, -, -, -, -, -, -, -, -, -, h13, -, -⟩ :=
    handle_game_over_success_run db sid w wc d s h
  obtain ⟨g, hg, hgc⟩ := statusOf_completed_elim _ sid h13
  unfold on_game_over
  rw [handle_game_over_guard _ sid w2 wc2 d2 g hg hgc]

/-- C1 witness: the concrete active session between users 1 and 2. -/
theorem game_over_idempotent_after_success_witness :
    (handle_game_over dbActive 5 (some 1) none false).2.2.1 = some statsActive ∧
    on_game_over (handle_game_over dbActive 5 (some 1) none false).1 5 (some 2) (some "w") true =
      ((handle_game_over dbActive 5 (some 1) none false).1, [], [], false) := by
  have h : (handle_game_over dbActive 5 (some 1) none false).2.2.1 = some statsActive := by
    rw [handle_game_over_dbActive_eval]
  exact ⟨h, game_over_idempotent_after_success dbActive 5 (some 1) none false statsActive h
    (some 2) (some "w") true⟩

/-- C2 counterexample: terminal states are not preserved - a game_over on an
abandoned session re-scores it and moves it to completed (emitting stats and
writing a history row), and a ready event on a completed session whose two
ready flags are set moves its status back to active. -/
theorem terminal_state_resurrection_counterexample :
    statusOf (on_game_over dbAbandoned 5 (some 1) none false).1 5 = some "completed" ∧
    (on_game_over dbAbandoned 5 (some 1) none false).1.history = [histActive] ∧
    (on_game_over dbAbandoned 5 (some 1) none false).2.2.1 = [Emit.game_over_stats statsActive] ∧
    statusOf (on_ready dbCompleted 5 (some 1)).1 5 = some "active" := by
  rw [on_game_over_dbAbandoned_eval]
  refine ⟨rfl, rfl, rfl, ?_⟩
  decide

/-- C2 amended: only the completed state is guarded - game_over and forfeit
on a completed session are full no-ops; a move event never changes any
status and never scores; a ready event never scores and can only change the
status to active. (An abandoned session, by contrast, can be re-scored, and
a completed one re-activated: see the counterexample.) -/
theorem completed_guard_amended (db : DB) (sid : Nat) (gs : GameSession)
    (hgs : assocFind db.sessions sid = some gs) :
    (gs.status = "completed" →
      (∀ w wc d, on_game_over db sid w wc d = (db, [], [], false)) ∧
      (∀ uid nm, on_forfeit db sid uid nm = (db, [], [], false))) ∧
    (∀ gid f b st sid2,
      (on_move db gid f b st).1.history = db.history ∧
      (on_move db gid f b st).1.users = db.users ∧
      (on_move db gid f b st).1.streaks = db.streaks ∧
      statusOf (on_move db gid f b st).1 sid2 = statusOf db sid2) ∧
    (∀ uid,
      (on_ready db sid uid).1.history = db.history ∧
      (on_ready db sid uid).1.users = db.users ∧
      (on_ready db sid uid).1.streaks = db.streaks ∧
      (statusOf (on_ready db sid uid).1 sid = statusOf db sid ∨
       statusOf (on_ready db sid uid).1 sid = some "active")) := by
  refine ⟨?_, ?_, ?_⟩
  · intro hc
    refine ⟨?_, ?_⟩
    · intro w wc d
      unfold on_game_over
      rw [handle_game_over_guard db sid w wc d gs hgs hc]
    · intro uid nm
      exact on_forfeit_guard db sid uid nm gs hgs hc
  · intro gid f b st sid2
    exact on_move_no_scoring_status db gid f b st sid2
  · intro uid
    exact ⟨(on_ready_no_scoring db sid uid).1, (on_ready_no_scoring db sid uid).2.1,
      (on_ready_no_scoring db sid uid).2.2, on_ready_status db sid uid⟩

/-- C2 amended witness: the guards at the concrete completed session. -/
theorem completed_guard_amended_witness :
    assocFind dbCompleted.sessions 5 = some gsCompleted ∧
    on_game_over dbCompleted 5 (some 2) none false = (dbCompleted, [], [], false) ∧
    on_forfeit dbCompleted 5 (some 1) "Alice" = (dbCompleted, [], [], false) := by
  have h := completed_guard_amended dbCompleted 5 gsCompleted rfl
  exact ⟨rfl, (h.1 rfl).1 (some 2) none false, (h.1 rfl).2 (some 1) "Alice"⟩

/-- C3: the rating computation is Elo with K = 32 - each returned new rating
is the old rating plus 32 times (actual score minus expected score
1/(1+10^((opponent-own)/400))), rounded to the nearest integer - and, at
equal ratings 1200/1200, a win yields (1216, 1184) while a draw leaves both
at 1200. -/
theorem elo_k32_formula_and_scenarios :
    (∀ (db : DB) (w : Option Nat) (i j : Nat) (d : Bool) (ui uj : User),
      i ≠ j → assocFind db.users i = some ui → assocFind db.users j = some uj →
      (calculate_elo db w i j d).2.2 =
        some (ui.elo,
          round ((ui.elo : ℝ) + 32 *
            ((if d then (0.5 : ℝ) else if w = some i then 1 else 0) -
              1 / (1 + (10 : ℝ) ^ ((((uj.elo - ui.elo : Int)) : ℝ) / 400)))),
          uj.elo,
          round ((uj.elo : ℝ) + 32 *
            ((if d then (0.5 : ℝ) else if w = some j then 1 else 0) -
              1 / (1 + (10 : ℝ) ^ ((((ui.elo - uj.elo : Int)) : ℝ) / 400)))))) ∧
    (calculate_elo dbWaiting (some 1) 1 2 false).2.2 = some (1200, 1216, 1200, 1184) ∧
    (calculate_elo dbWaiting none 1 2 true).2.2 = some (1200, 1200, 1200, 1200) := by
  refine ⟨?_, ?_, ?_⟩
  · intro db w i j d ui uj hij hi hj
    unfold calculate_elo expScore
    rw [hi, hj]
    dsimp only
    simp only [if_neg (show ¬(j = i) from fun hh => hij hh.symm)]
  · rw [calculate_elo_equal_ratings dbWaiting (some 1) 1 2 false (by decide) ⟨1200⟩ ⟨1200⟩
      rfl rfl rfl]
    rfl
  · rw [calculate_elo_equal_ratings dbWaiting none 1 2 true (by decide) ⟨1200⟩ ⟨1200⟩
      rfl rfl rfl]
    rfl

/-- C3 witness: the formula part applied at the concrete 1200/1200 store. -/
theorem elo_k32_formula_witness :
    (1 : Nat) ≠ 2 ∧
    (calculate_elo dbWaiting (some 1) 1 2 false).2.2 =
      some ((1200 : Int),
        round (((1200 : Int) : ℝ) + 32 *
          ((1 : ℝ) - 1 / (1 + (10 : ℝ) ^ ((((1200 - 1200 : Int)) : ℝ) / 400)))),
        (1200 : Int),
        round (((1200 : Int) : ℝ) + 32 *
          ((0 : ℝ) - 1 / (1 + (10 : ℝ) ^ ((((1200 - 1200 : Int)) : ℝ) / 400))))) := by
  have h := elo_k32_formula_and_scenarios.1 dbWaiting (some 1) 1 2 false ⟨1200⟩ ⟨1200⟩
    (by decide) rfl rfl
  refine ⟨by decide, ?_⟩
  simpa using h

/-- C4: the rating computation is symmetric - swapping the two player slots
(keeping the same winner id and draw flag) swaps the two results and leaves
the durable store identical. -/
theorem elo_symmetry (db : DB) (w : Option Nat) (i j : Nat) (d : Bool) (hij : i ≠ j) :
    (calculate_elo db w j i d).1 = (calculate_elo db w i j d).1 ∧
    (calculate_elo db w j i d).2.1 = (calculate_elo db w i j d).2.1 ∧
    (calculate_elo db w j i d).2.2 =
      Option.map (fun t => (t.2.2.1, t.2.2.2, t.1, t.2.1)) (calculate_elo db w i j d).2.2 := by
  unfold calculate_elo
  cases h1 : assocFind db.users i <;> cases h2 : assocFind db.users j <;> dsimp only
  · exact ⟨rfl, rfl, rfl⟩
  · exact ⟨rfl, rfl, rfl⟩
  · exact ⟨rfl, rfl, rfl⟩
  · simp only [if_neg (show ¬(i = j) from hij),
      if_neg (show ¬(j = i) from fun hh => hij hh.symm)]
    rw [setA_comm db.users i j _ _ hij]
    exact ⟨rfl, rfl, rfl⟩

/-- C4 witness: symmetry applied at the concrete 1200/1200 store. -/
theorem elo_symmetry_witness :
    (1 : Nat) ≠ 2 ∧
    (calculate_elo dbWaiting (some 1) 2 1 false).2.2 =
      Option.map (fun t => (t.2.2.1, t.2.2.2, t.1, t.2.1))
        (calculate_elo dbWaiting (some 1) 1 2 false).2.2 :=
  ⟨by decide, (elo_symmetry dbWaiting (some 1) 1 2 false (by decide)).2.2⟩

/-- C10: the colour-token mapping - with a falsy supplied winner id and a
non-empty colour token, the tokens "w", "red" and "X" resolve to player one
and every other token to player two; a truthy winner id, a missing token or
an empty token leave the supplied winner id unchanged. -/
theorem winner_color_mapping (wid : Option Nat) (c : String) (p1 p2 : Nat) :
    (pyTruthyNat wid = false → c ≠ "" →
      resolveWinner wid (some c) p1 p2 =
        some (if c = "w" ∨ c = "red" ∨ c = "X" then p1 else p2)) ∧
    (pyTruthyNat wid = true → ∀ wc, resolveWinner wid wc p1 p2 = wid) ∧
    resolveWinner wid none p1 p2 = wid ∧
    resolveWinner wid (some "") p1 p2 = wid := by
  refine ⟨?_, ?_, ?_, ?_⟩
  · intro hw hc
    unfold resolveWinner
    rw [if_pos ⟨hw, by simp [pyTruthyStr, hc]⟩]
    simp only [Option.some.injEq]
    split_ifs <;> rfl
  · intro hw wc
    unfold resolveWinner
    rw [if_neg (by simp [hw])]
  · unfold resolveWinner
    rw [if_neg (by simp [pyTruthyStr])]
  · unfold resolveWinner
    rw [if_neg (by simp [pyTruthyStr])]

/-- C10 witness: the mapping at concrete tokens. -/
theorem winner_color_mapping_witness :
    resolveWinner none (some "red") 7 8 = some 7 ∧
    resolveWinner none (some "b") 7 8 = some 8 ∧
    resolveWinner (some 3) (some "w") 7 8 = some 3 := by
  refine ⟨?_, ?_, ?_⟩
  · have h := (winner_color_mapping none "red" 7 8).1 rfl (by decide)
    simpa using h
  · have h := (winner_color_mapping none "b" 7 8).1 rfl (by decide)
    simpa using h
  · exact (winner_color_mapping (some 3) "w" 7 8).2.1 rfl (some "w")

/-- C5 counterexample: two ready events from the same participant emit one
player_ready broadcast each - two in total, where the claim allows exactly
one - and a duplicate ready arriving after the game has started re-emits
game_start, so a duplicate-bearing sequence produces two game_start
broadcasts instead of exactly one. -/
theorem ready_duplicate_broadcast_counterexample :
    (runReadies dbWaiting 5 [some 1, some 1]).2 =
      [Emit.player_ready (some 1), Emit.player_ready (some 1)] ∧
    statusOf (runReadies dbWaiting 5 [some 1, some 1]).1 5 = some "waiting" ∧
    (runReadies dbWaiting 5 [some 1, some 2, some 1]).2.count (Emit.game_start 5) = 2 := by
  decide

/-- C5 amended: every ready event from a participant emits exactly one
broadcast for that event - player_ready while the flag pair is still
incomplete, game_start whenever both flags hold after the event (the handler
never checks the status, so a duplicate ready after activation re-broadcasts
game_start). Ready from both participants in either order activates the
session with a single game_start across the pair; duplicate readies from one
participant leave the flags and the waiting status exactly as after the
first event but emit one player_ready per event. -/
theorem ready_handshake_amended (db : DB) (sid : Nat) (gs : GameSession)
    (hgs : assocFind db.sessions sid = some gs) (hw : gs.status = "waiting")
    (h1 : gs.player1_ready = false) (h2 : gs.player2_ready = false)
    (hp : gs.player1_id ≠ gs.player2_id) :
    ((runReadies db sid [some gs.player1_id, some gs.player2_id]).2 =
        [Emit.player_ready (some gs.player1_id), Emit.game_start sid] ∧
      statusOf (runReadies db sid [some gs.player1_id, some gs.player2_id]).1 sid =
        some "active") ∧
    ((runReadies db sid [some gs.player2_id, some gs.player1_id]).2 =
        [Emit.player_ready (some gs.player2_id), Emit.game_start sid] ∧
      statusOf (runReadies db sid [some gs.player2_id, some gs.player1_id]).1 sid =
        some "active") ∧
    ((runReadies db sid [some gs.player1_id, some gs.player1_id]).2 =
        [Emit.player_ready (some gs.player1_id), Emit.player_ready (some gs.player1_id)] ∧
      statusOf (runReadies db sid [some gs.player1_id, some gs.player1_id]).1 sid =
        some "waiting" ∧
      readyFlags (runReadies db sid [some gs.player1_id, some gs.player1_id]).1 sid =
        some (true, false)) ∧
    (runReadies db sid [some gs.player1_id, some gs.player2_id, some gs.player1_id]).2 =
      [Emit.player_ready (some gs.player1_id), Emit.game_start sid, Emit.game_start sid] := by
  have hp2 : gs.player2_id ≠ gs.player1_id := Ne.symm hp
  have sA1 := on_ready_partial_p1 db sid gs (some gs.player1_id) hgs rfl h2
  have hgs1 : assocFind (setA db.sessions sid { gs with player1_ready := true }) sid =
      some { gs with player1_ready := true } := by
    rw [assocFind_setA_self, hgs]
    rfl
  have sA2 := on_ready_completes_p2
    { db with sessions := setA db.sessions sid { gs with player1_ready := true } }
    sid { gs with player1_ready := true } (some gs.player2_id) hgs1 rfl hp2 rfl
  have sC2 := on_ready_partial_p1
    { db with sessions := setA db.sessions sid { gs with player1_ready := true } }
    sid { gs with player1_ready := true } (some gs.player1_id) hgs1 rfl h2
  have sB1 := on_ready_partial_p2 db sid gs (some gs.player2_id) hgs rfl hp2 h1
  have hgs1B : assocFind (setA db.sessions sid { gs with player2_ready := true }) sid =
      some { gs with player2_ready := true } := by
    rw [assocFind_setA_self, hgs]
    rfl
  have sB2 := on_ready_completes_p1
    { db with sessions := setA db.sessions sid { gs with player2_ready := true } }
    sid { gs with player2_ready := true } (some gs.player1_id) hgs1B rfl rfl
  have hgs2 : assocFind (setA (setA (setA db.sessions sid { gs with player1_ready := true }) sid { gs with player1_ready := true, player2_ready := true }) sid { gs with player1_ready := true, player2_ready := true, status := "active" }) sid = some { gs with player1_ready := true, player2_ready := true, status := "active" } := by
    rw [assocFind_setA_self, assocFind_setA_self, assocFind_setA_self, hgs]
    rfl
  have sD3 := on_ready_completes_p1
    { db with sessions := setA (setA (setA db.sessions sid { gs with player1_ready := true }) sid { gs with player1_ready := true, player2_ready := true }) sid { gs with player1_ready := true, player2_ready := true, status := "active" } }
    sid { gs with player1_ready := true, player2_ready := true, status := "active" }
    (some gs.player1_id) hgs2 rfl rfl
  refine ⟨⟨?_, ?_⟩, ⟨?_, ?_⟩, ⟨?_, ?_, ?_⟩, ?_⟩
  · simp only [runReadies]
    rw [sA1]
    dsimp only
    rw [sA2]
    rfl
  · simp only [runReadies]
    rw [sA1]
    dsimp only
    rw [sA2]
    unfold statusOf
    dsimp only
    rw [assocFind_setA_self, assocFind_setA_self, assocFind_setA_self, hgs]
    rfl
  · simp only [runReadies]
    rw [sB1]
    dsimp only
    rw [sB2]
    rfl
  · simp only [runReadies]
    rw [sB1]
    dsimp only
    rw [sB2]
    unfold statusOf
    dsimp only
    rw [assocFind_setA_self, assocFind_setA_self, assocFind_setA_self, hgs]
    rfl
  · simp only [runReadies]
    rw [sA1]
    dsimp only
    rw [sC2]
    rfl
  · simp only [runReadies]
    rw [sA1]
    dsimp only
    rw [sC2]
    unfold statusOf
    dsimp only
    rw [assocFind_setA_self, assocFind_setA_self, hgs]
    simp only [Option.map_some']
    try dsimp only
    rw [hw]
  · simp only [runReadies]
    rw [sA1]
    dsimp only
    rw [sC2]
    unfold readyFlags
    dsimp only
    rw [assocFind_setA_self, assocFind_setA_self, hgs]
    simp only [Option.map_some']
    try dsimp only
    rw [h2]
  · simp only [runReadies]
    rw [sA1]
    dsimp only
    rw [sA2]
    dsimp only
    rw [sD3]
    rfl

/-- C5 amended witness: the concrete waiting session. -/
theorem ready_handshake_amended_witness :
    (runReadies dbWaiting 5 [some 1, some 2]).2 =
      [Emit.player_ready (some 1), Emit.game_start 5] ∧
    statusOf (runReadies dbWaiting 5 [some 1, some 2]).1 5 = some "active" := by
  have h := ready_handshake_amended dbWaiting 5 gsWaiting rfl rfl rfl rfl (by decide)
  exact h.1

theorem resolveWinner_none (wid : Option Nat) (p1 p2 : Nat) :
    resolveWinner wid none p1 p2 = wid := by
  unfold resolveWinner
  rw [if_neg (by simp [pyTruthyStr])]

/-- C6: a forfeit on a waiting session abandons it, leaves every rating
untouched and notifies the rest of the room (sender excluded); a forfeit by
a participant on an active session completes it with the other participant
as winner and appends exactly one history row naming that winner. -/
theorem forfeit_waiting_and_active (db : DB) (sid : Nat) (gs : GameSession)
    (uid : Option Nat) (nm : String)
    (hgs : assocFind db.sessions sid = some gs)
    (hpart : uid = some gs.player1_id ∨ uid = some gs.player2_id)
    (hp : gs.player1_id ≠ gs.player2_id) :
    (gs.status = "waiting" →
      statusOf (on_forfeit db sid uid nm).1 sid = some "abandoned" ∧
      (on_forfeit db sid uid nm).1.users = db.users ∧
      (on_forfeit db sid uid nm).1.history = db.history ∧
      (on_forfeit db sid uid nm).2.2.1 = [Emit.opponent_forfeit nm true]) ∧
    (gs.status = "active" →
      ∀ u1 u2 t1 t2, assocFind db.users gs.player1_id = some u1 →
        assocFind db.users gs.player2_id = some u2 →
        assocFind db.streaks gs.player1_id = some t1 →
        assocFind db.streaks gs.player2_id = some t2 →
      ∃ hrow s,
        (on_forfeit db sid uid nm).1.history = db.history ++ [hrow] ∧
        hrow.winner_id = some (if uid = some gs.player1_id then gs.player2_id else gs.player1_id) ∧
        hrow.player1_id = gs.player1_id ∧ hrow.player2_id = gs.player2_id ∧
        statusOf (on_forfeit db sid uid nm).1 sid = some "completed" ∧
        winnerOf (on_forfeit db sid uid nm).1 sid = some hrow.winner_id ∧
        (on_forfeit db sid uid nm).2.2.1 =
          [Emit.opponent_forfeit nm true, Emit.game_over_stats s]) := by
  refine ⟨?_, ?_⟩
  · intro hw
    rw [on_forfeit_waiting db sid uid nm gs hgs hw]
    refine ⟨?_, rfl, rfl, rfl⟩
    unfold statusOf
    dsimp only
    rw [assocFind_setA_self, hgs]
    rfl
  · intro hac u1 u2 t1 t2 h1 h2 hst1 hst2
    have hc : gs.status ≠ "completed" := by rw [hac]; decide
    have hnw : gs.status ≠ "waiting" := by rw [hac]; decide
    obtain ⟨s, hs⟩ := handle_game_over_succeeds db sid
      (some (if uid = some gs.player1_id then gs.player2_id else gs.player1_id)) none false
      gs u1 u2 t1 t2 hgs hc hp h1 h2 hst1 hst2
    obtain ⟨gs2, mid, hgs2, -, hwin, -, -, -, -, -, -, -, -, -, hstat, hwinner, hhist⟩ :=
      handle_game_over_success_run db sid
        (some (if uid = some gs.player1_id then gs.player2_id else gs.player1_id)) none false s hs
    have hge : gs2 = gs := by
      rw [hgs] at hgs2
      exact (Option.some.inj hgs2).symm
    rw [hge] at hwin hhist
    have hswin : s.winner_id =
        some (if uid = some gs.player1_id then gs.player2_id else gs.player1_id) := by
      rw [hwin]
      exact resolveWinner_none _ _ _
    rw [on_forfeit_scores db sid uid nm gs hgs hc hnw]
    rcases hgo : handle_game_over db sid
        (some (if uid = some gs.player1_id then gs.player2_id else gs.player1_id)) none false
        with ⟨db2, cs, r, exc⟩
    rw [hgo] at hs hstat hwinner hhist
    obtain rfl : r = some s := hs
    dsimp only
    refine ⟨_, s, hhist, ?_, rfl, rfl, hstat, ?_, rfl⟩
    · dsimp only
      exact hswin
    · rw [hwinner]

/-- C6 witness: waiting and active forfeits at the concrete stores. -/
theorem forfeit_waiting_and_active_witness :
    (statusOf (on_forfeit dbWaiting 5 (some 1) "Alice").1 5 = some "abandoned" ∧
     (on_forfeit dbWaiting 5 (some 1) "Alice").1.users = dbWaiting.users) ∧
    (∃ hrow s, (on_forfeit dbActive 5 (some 2) "Bob").1.history = dbActive.history ++ [hrow] ∧
      hrow.winner_id = some (if (some 2 : Option Nat) = some gsActive.player1_id then gsActive.player2_id else gsActive.player1_id) ∧
      statusOf (on_forfeit dbActive 5 (some 2) "Bob").1 5 = some "completed" ∧
      (on_forfeit dbActive 5 (some 2) "Bob").2.2.1 =
        [Emit.opponent_forfeit "Bob" true, Emit.game_over_stats s]) := by
  constructor
  · have h := (forfeit_waiting_and_active dbWaiting 5 gsWaiting (some 1) "Alice" rfl
      (Or.inl rfl) (by decide)).1 rfl
    exact ⟨h.1, h.2.1⟩
  · have h := (forfeit_waiting_and_active dbActive 5 gsActive (some 2) "Bob" rfl
      (Or.inr rfl) (by decide)).2 rfl ⟨1200⟩ ⟨1200⟩ zeroStreak zeroStreak rfl rfl rfl rfl
    obtain ⟨hrow, s, ha, hb, -, -, he, -, hg⟩ := h
    exact ⟨hrow, s, ha, hb, he, hg⟩

/-- C7 counterexample: a successful termination is not one atomic unit - it
commits twice, and after the first commit the new ratings and the completed
status are durable while the history row (and the streak updates) are not,
exactly the intermediate durable state the claim rules out. -/
theorem scoring_two_commits_counterexample :
    (handle_game_over dbActive 5 (some 1) none false).2.1 = [dbActiveMid, dbActiveFinal] ∧
    dbActiveMid.history = [] ∧
    dbActiveMid.streaks = dbActive.streaks ∧
    dbActiveMid.users ≠ dbActive.users ∧
    statusOf dbActiveMid 5 = some "completed" ∧
    (handle_game_over dbActive 5 (some 1) none false).1.history = [histActive] ∧
    dbActiveFinal.users = dbActiveMid.users := by
  rw [handle_game_over_dbActive_eval]
  exact ⟨rfl, rfl, rfl, by decide, by decide, rfl, by decide⟩

theorem upsertStreak_miss (l : List (Nat × Streak)) (w : Option Nat) (d : Bool)
    (pid : Nat) (h : assocFind l pid = none) : upsertStreak l w d pid = none := by
  unfold upsertStreak
  rw [h]

theorem updateStreaks_miss1 (db : DB) (p1 p2 : Nat) (w : Option Nat) (d : Bool)
    (h : assocFind db.streaks p1 = none) : updateStreaks db p1 p2 w d = none := by
  unfold updateStreaks
  rw [upsertStreak_miss db.streaks w d p1 h]

/-- C7 amended: the status flip, winner assignment and both rating writes
are committed together in a first commit issued inside the rating step; the
history row and the streak updates go in a second, separate commit, so an
intermediate durable state with ratings and terminal status but no history
row exists. When the rating computation fails (a participant row missing),
nothing at all is committed: the store is unchanged, the session does not
durably complete, no history row exists, and the handler raises. When the
second transaction fails instead (a participant has no streaks row, so the
in-place counter bump raises), only the first commit is durable: ratings
updated and status completed, but no history row and no streak update, and
the handler raises. -/
theorem scoring_commit_structure_amended (db : DB) (sid : Nat) (wid : Option Nat)
    (wc : Option String) (d : Bool) :
    (∀ gs, assocFind db.sessions sid = some gs → gs.status ≠ "completed" →
      (assocFind db.users gs.player1_id = none ∨ assocFind db.users gs.player2_id = none) →
      handle_game_over db sid wid wc d = (db, [], none, true)) ∧
    (∀ s, (handle_game_over db sid wid wc d).2.2.1 = some s →
      ∃ mid,
        (handle_game_over db sid wid wc d).2.1 = [mid, (handle_game_over db sid wid wc d).1] ∧
        mid.history = db.history ∧
        mid.streaks = db.streaks ∧
        mid.users = (handle_game_over db sid wid wc d).1.users ∧
        statusOf mid sid = some "completed" ∧
        statusOf (handle_game_over db sid wid wc d).1 sid = some "completed") ∧
    (∀ gs u1 u2, assocFind db.sessions sid = some gs → gs.status ≠ "completed" →
      assocFind db.users gs.player1_id = some u1 →
      assocFind db.users gs.player2_id = some u2 →
      assocFind db.streaks gs.player1_id = none →
      (handle_game_over db sid wid wc d).2.2.2 = true ∧
      (handle_game_over db sid wid wc d).2.2.1 = none ∧
      (handle_game_over db sid wid wc d).2.1 = [(handle_game_over db sid wid wc d).1] ∧
      (handle_game_over db sid wid wc d).1.history = db.history ∧
      statusOf (handle_game_over db sid wid wc d).1 sid = some "completed") := by
  refine ⟨?_, ?_, ?_⟩
  · intro gs hgs hst hfail
    exact handle_game_over_failure_run db sid wid wc d gs hgs hst hfail
  · intro s h
    obtain ⟨gs, mid, -, -, -, -, -, -, h7, -, h9, h10, h11, h12, h13, -, -⟩ :=
      handle_game_over_success_run db sid wid wc d s h
    exact ⟨mid, h7, h9, h11, h10, h12, h13⟩
  · intro gs u1 u2 hgs hst h1 h2 hsnone
    unfold handle_game_over
    rw [hgs]
    dsimp only
    rw [if_neg hst]
    rcases hce : calculate_elo
        (completeSession db sid gs (resolveWinner wid wc gs.player1_id gs.player2_id))
        (resolveWinner wid wc gs.player1_id gs.player2_id)
        gs.player1_id gs.player2_id d with ⟨db2, cs, r⟩
    rcases r with _ | t
    · exfalso
      unfold calculate_elo at hce
      have hcu : (completeSession db sid gs (resolveWinner wid wc gs.player1_id gs.player2_id)).users = db.users := rfl
      rw [hcu, h1, h2] at hce
      simp at hce
    · have hstr : db2.streaks = db.streaks := by
        have hh := calculate_elo_streaks
            (completeSession db sid gs (resolveWinner wid wc gs.player1_id gs.player2_id))
            (resolveWinner wid wc gs.player1_id gs.player2_id) gs.player1_id gs.player2_id d
        rw [hce] at hh
        exact hh
      have hcs : cs = [db2] := calculate_elo_success_shape _ _ _ _ _ _ _ _ hce
      subst hcs
      have hus : updateStreaks
          (recordHistory db2 gs (resolveWinner wid wc gs.player1_id gs.player2_id) t)
          gs.player1_id gs.player2_id (resolveWinner wid wc gs.player1_id gs.player2_id) d = none :=
        updateStreaks_miss1 _ _ _ _ _
          (by rw [show (recordHistory db2 gs (resolveWinner wid wc gs.player1_id gs.player2_id) t).streaks = db2.streaks from rfl, hstr]; exact hsnone)
      dsimp only
      rw [hus]
      refine ⟨rfl, rfl, rfl, ?_, ?_⟩
      · have hh := calculate_elo_history
            (completeSession db sid gs (resolveWinner wid wc gs.player1_id gs.player2_id))
            (resolveWinner wid wc gs.player1_id gs.player2_id) gs.player1_id gs.player2_id d
        rw [hce] at hh
        exact hh
      · have hs := calculate_elo_sessions
            (completeSession db sid gs (resolveWinner wid wc gs.player1_id gs.player2_id))
            (resolveWinner wid wc gs.player1_id gs.player2_id) gs.player1_id gs.player2_id d
        rw [hce] at hs
        unfold statusOf
        rw [hs, completeSession]
        dsimp only
        rw [assocFind_setA_self, hgs]
        rfl

/-- C7 amended witness: the failing-rating-update store (user 2 missing),
the successful concrete termination, and the store whose streak rows are
missing (second transaction fails after the first commit). -/
theorem scoring_commit_structure_amended_witness :
    handle_game_over dbNoUser2 5 (some 1) none false = (dbNoUser2, [], none, true) ∧
    (∃ mid, (handle_game_over dbActive 5 (some 1) none false).2.1 =
        [mid, (handle_game_over dbActive 5 (some 1) none false).1] ∧
      mid.history = dbActive.history ∧
      mid.users = (handle_game_over dbActive 5 (some 1) none false).1.users ∧
      statusOf mid 5 = some "completed") ∧
    ((handle_game_over dbNoStreaks 5 (some 1) none false).2.2.2 = true ∧
     (handle_game_over dbNoStreaks 5 (some 1) none false).2.2.1 = none ∧
     (handle_game_over dbNoStreaks 5 (some 1) none false).1.history = [] ∧
     statusOf (handle_game_over dbNoStreaks 5 (some 1) none false).1 5 = some "completed") := by
  refine ⟨?_, ?_, ?_⟩
  · exact (scoring_commit_structure_amended dbNoUser2 5 (some 1) none false).1 gsActive rfl
      (by decide) (Or.inr rfl)
  · have h := (scoring_commit_structure_amended dbActive 5 (some 1) none false).2.1 statsActive
      (by rw [handle_game_over_dbActive_eval])
    obtain ⟨mid, h7, h9, -, h10, h12, -⟩ := h
    exact ⟨mid, h7, h9, h10, h12⟩
  · have h := (scoring_commit_structure_amended dbNoStreaks 5 (some 1) none false).2.2 gsActive
      ⟨1200⟩ ⟨1200⟩ rfl (by decide) rfl rfl rfl
    exact ⟨h.1, h.2.1, h.2.2.2.1, h.2.2.2.2⟩

/-- C8 counterexample: a forfeit from the non-participant 999 on the active
session terminates it, declares participant 1 (player one) the winner,
scores the game and writes a history row - the claim requires it to be a
no-op. -/
theorem nonparticipant_forfeit_counterexample :
    ¬((999 : Nat) = 1 ∨ (999 : Nat) = 2) ∧
    statusOf (on_forfeit dbActive 5 (some 999) "Mallory").1 5 = some "completed" ∧
    winnerOf (on_forfeit dbActive 5 (some 999) "Mallory").1 5 = some (some 1) ∧
    (on_forfeit dbActive 5 (some 999) "Mallory").1.history = [histActive] := by
  rw [on_forfeit_dbActive_stranger_eval]
  exact ⟨by decide, by decide, by decide, rfl⟩

/-- C8 amended: a ready event naming a non-participant changes no ready flag
and triggers no scoring (though it still answers with a broadcast); a
forfeit performs no membership check at all - on a non-waiting,
non-completed session, any caller whose id differs from player one's is
handled exactly like a forfeiting player two: player one becomes the winner
argument of the termination pipeline. -/
theorem nonparticipant_events_amended (db : DB) (sid : Nat) (gs : GameSession)
    (uid : Option Nat)
    (hgs : assocFind db.sessions sid = some gs)
    (hu1 : uid ≠ some gs.player1_id) (hu2 : uid ≠ some gs.player2_id) :
    (readyFlags (on_ready db sid uid).1 sid = readyFlags db sid ∧
     (on_ready db sid uid).1.history = db.history ∧
     (on_ready db sid uid).1.users = db.users ∧
     (on_ready db sid uid).1.streaks = db.streaks) ∧
    (∀ nm, gs.status ≠ "completed" → gs.status ≠ "waiting" →
      on_forfeit db sid uid nm =
        (match handle_game_over db sid (some gs.player1_id) none false with
         | (db2, commits, some s, exc) =>
           (db2, commits, [Emit.opponent_forfeit nm true, Emit.game_over_stats s], exc)
         | (db2, commits, none, exc) => (db2, commits, [], exc))) := by
  constructor
  · refine ⟨?_, (on_ready_no_scoring db sid uid).1, (on_ready_no_scoring db sid uid).2.1,
      (on_ready_no_scoring db sid uid).2.2⟩
    unfold on_ready
    rw [hgs]
    dsimp only
    rw [if_neg hu1, if_neg hu2]
    split
    · unfold readyFlags
      dsimp only
      rw [assocFind_setA_self, assocFind_setA_self, hgs]
      rfl
    · unfold readyFlags
      dsimp only
      rw [assocFind_setA_self, hgs]
      rfl
  · intro nm hc hw
    rw [on_forfeit_scores db sid uid nm gs hgs hc hw]
    rw [if_neg hu1]

/-- C8 amended witness: the stranger 999 against the concrete stores. -/
theorem nonparticipant_events_amended_witness :
    (readyFlags (on_ready dbWaiting 5 (some 999)).1 5 = readyFlags dbWaiting 5 ∧
     (on_ready dbWaiting 5 (some 999)).1.users = dbWaiting.users) ∧
    on_forfeit dbActive 5 (some 999) "Mallory" =
      (match handle_game_over dbActive 5 (some gsActive.player1_id) none false with
       | (db2, commits, some s, exc) =>
         (db2, commits, [Emit.opponent_forfeit "Mallory" true, Emit.game_over_stats s], exc)
       | (db2, commits, none, exc) => (db2, commits, [], exc)) := by
  constructor
  · have h := (nonparticipant_events_amended dbWaiting 5 gsWaiting (some 999) rfl
      (by decide) (by decide)).1
    exact ⟨h.1, h.2.2.1⟩
  · exact (nonparticipant_events_amended dbActive 5 gsActive (some 999) rfl
      (by decide) (by decide)).2 "Mallory" (by decide) (by decide)

/-- C9 counterexample: a game_over carrying the client-supplied winner id
999 persists 999 as the session's winner although neither participant (ids 1
and 2) matches it, and the appended history row records that stranger as
winner too. -/
theorem winner_unvalidated_counterexample :
    assocFind (on_game_over dbActive 5 (some 999) none false).1.sessions 5 = some gsStranger ∧
    gsStranger.winner_id = some 999 ∧
    gsStranger.player1_id = 1 ∧ gsStranger.player2_id = 2 ∧
    ¬((999 : Nat) = 1 ∨ (999 : Nat) = 2) ∧
    (on_game_over dbActive 5 (some 999) none false).1.history = [histStranger] := by
  rw [on_game_over_dbStranger_eval]
  exact ⟨by decide, by decide, by decide, by decide, by decide, rfl⟩

/-- C9 amended: a winner id obtained from the colour-token mapping is always
one of the two participants, and the winner id chosen by the forfeit path is
always one of the two participants; but a truthy client-supplied winner_id
is persisted without membership validation, so a stored winner id need not
be a participant. -/
theorem winner_membership_amended (p1 p2 : Nat) :
    (∀ wid wc, pyTruthyNat wid = false → pyTruthyStr wc = true →
      resolveWinner wid wc p1 p2 = some p1 ∨ resolveWinner wid wc p1 p2 = some p2) ∧
    (∀ (uid : Option Nat) (q1 q2 : Nat),
      (if uid = some q1 then q2 else q1) = q1 ∨ (if uid = some q1 then q2 else q1) = q2) ∧
    (∀ wid wc, pyTruthyNat wid = true → resolveWinner wid wc p1 p2 = wid) := by
  refine ⟨?_, ?_, ?_⟩
  · intro wid wc hw hc
    unfold resolveWinner
    rw [if_pos ⟨hw, hc⟩]
    split
    · exact Or.inl rfl
    · exact Or.inr rfl
  · intro uid q1 q2
    split
    · exact Or.inr rfl
    · exact Or.inl rfl
  · intro wid wc hw
    unfold resolveWinner
    rw [if_neg (by simp [hw])]

/-- C9 amended witness: the colour path and the truthy-id path at concrete
arguments. -/
theorem winner_membership_amended_witness :
    (resolveWinner none (some "w") 1 2 = some 1 ∨ resolveWinner none (some "w") 1 2 = some 2) ∧
    resolveWinner (some 999) (some "w") 1 2 = some 999 := by
  constructor
  · exact (winner_membership_amended 1 2).1 none (some "w") rfl rfl
  · exact (winner_membership_amended 1 2).2.2 (some 999) (some "w") rfl
